import Mathlib

/-!
Verification of the locket command wiring (`cmd/locket/main.go`) and of the
lock-acquisition policy described by the specification.

The first part is a shallow embedding of `main`: the configuration fields it
reads, the identities of the objects it allocates and passes around, the
ordered list of run-group members it builds, and the sequence of observable
startup events (including the failure paths taken through `logger.Fatal`,
which logs and panics so deferred calls still run, and `os.Exit`, which
terminates without running deferred calls).

The second part embeds `appendExtraConnectionStringParam`, parameterised by
the external DSN/URL parsing collaborators it calls.

The third part models the lock-acquisition policy (Lock Pick over the Lock
Store).  That code is not part of this source tree, so it is modelled from
the specification, as flagged on each definition.
-/

namespace Locket

/-- The configuration fields of `LocketConfig` that `main` reads. -/
structure LocketConfig where
  listenAddress : String
  consulCluster : String
  databaseDriver : String
  databaseConnectionString : String
  sqlCACertFile : String
  maxOpenDatabaseConnections : Nat
  reportInterval : Nat
  enableConsulServiceRegistration : Bool
  debugAddress : String
  certFile : String
  keyFile : String
  caFile : String
deriving DecidableEq

/-- Outcomes of the fallible external steps `main` performs, so that every
control path of `main` (success and each failure) can be traced. -/
structure Env where
  metronOk : Bool
  connStringOk : Bool
  sqlOpenOk : Bool
  pingOk : Bool
  createLockTableOk : Bool
  listenAddrOk : Bool
  lookupPortOk : Bool
  tlsOk : Bool
  consulClientOk : Bool
  groupRunOk : Bool
deriving DecidableEq

/-- Where an interval argument at a construction site comes from: a field of
the loaded configuration, or the package-level constant `locket.RetryInterval`. -/
inductive IntervalSource
  | fromConfig (nanos : Nat)
  | retryIntervalConst
deriving DecidableEq

/-- Arguments of `expiration.NewLockPick(sqlDB, clock, metronClient)`,
recorded as the identities of the objects passed. -/
structure LockPickArgs where
  sqlDB : Nat
  clock : Nat
  metron : Nat
deriving DecidableEq

/-- Arguments of `expiration.NewBurglar(logger, sqlDB, lockPick, clock,
locket.RetryInterval, metronClient)`. -/
structure BurglarArgs where
  sqlDB : Nat
  lockPick : Nat
  clock : Nat
  interval : IntervalSource
  metron : Nat
deriving DecidableEq

/-- Arguments of `handlers.NewLocketHandler(logger, sqlDB, lockPick,
requestNotifier, exitCh)`. -/
structure HandlerArgs where
  sqlDB : Nat
  lockPick : Nat
  requestNotifier : Nat
  exitCh : Nat
deriving DecidableEq

/-- Arguments of a `metrics.New*MetricsNotifier` construction. -/
structure NotifierArgs where
  clock : Nat
  metron : Nat
  interval : IntervalSource
deriving DecidableEq

/-- Arguments of `grpcserver.NewGRPCServer(logger, listenAddress, tlsConfig,
handler)`. -/
structure ServerArgs where
  listenAddress : String
  handler : Nat
deriving DecidableEq

/-- The ordered run-group member names, as built by `main`: the base list,
then `registration-runner` appended when consul registration is enabled, then
`debug-server` prepended when a debug address is configured. -/
def membersOf (cfg : LocketConfig) : List String :=
  let ms :=
    ["server", "burglar", "lock-metrics-notifier", "db-metrics-notifier",
      "request-metrics-notifier"]
      ++ (if cfg.enableConsulServiceRegistration then ["registration-runner"] else [])
  if cfg.debugAddress = "" then ms else "debug-server" :: ms

/-- The object graph `main` builds on the all-successful path.  Each call to
a constructor (`clock.NewClock`, `helpers.NewQueryMonitor`, …, `make(chan)`)
yields a fresh identity, numbered in program order; each component records the
identities of the objects passed to it. -/
structure Wiring where
  metronId : Nat
  clockId : Nat
  sqlConnId : Nat
  dbMonitorId : Nat
  monitoredDBId : Nat
  sqlDBId : Nat
  lockMetricsNotifierId : Nat
  lockMetricsNotifier : NotifierArgs
  dbMetricsNotifierId : Nat
  dbMetricsNotifier : NotifierArgs
  requestNotifierId : Nat
  requestNotifier : NotifierArgs
  lockPickId : Nat
  lockPick : LockPickArgs
  burglarId : Nat
  burglar : BurglarArgs
  exitCh : Nat
  handlerId : Nat
  handler : HandlerArgs
  serverId : Nat
  server : ServerArgs
  members : List String

/-- The wiring `main` builds from a loaded configuration, following the
construction order of the source: metron client, clock, sql connection,
query monitor, monitored DB, sql DB, the three metrics notifiers, lock pick,
burglar, exit channel, handler, grpc server. -/
def mkWiring (cfg : LocketConfig) : Wiring :=
  { metronId := 0
    clockId := 1
    sqlConnId := 2
    dbMonitorId := 3
    monitoredDBId := 4
    sqlDBId := 5
    lockMetricsNotifierId := 6
    lockMetricsNotifier := { clock := 1, metron := 0, interval := .fromConfig cfg.reportInterval }
    dbMetricsNotifierId := 7
    dbMetricsNotifier := { clock := 1, metron := 0, interval := .fromConfig cfg.reportInterval }
    requestNotifierId := 8
    requestNotifier := { clock := 1, metron := 0, interval := .fromConfig cfg.reportInterval }
    lockPickId := 9
    lockPick := { sqlDB := 5, clock := 1, metron := 0 }
    burglarId := 10
    burglar := { sqlDB := 5, lockPick := 9, clock := 1, interval := .retryIntervalConst, metron := 0 }
    exitCh := 11
    handlerId := 12
    handler := { sqlDB := 5, lockPick := 9, requestNotifier := 8, exitCh := 11 }
    serverId := 13
    server := { listenAddress := cfg.listenAddress, handler := 12 }
    members := membersOf cfg }

/-- The object identities passed to each constructed component, by component
name, read off the construction calls in `main`. -/
def componentArgIds (w : Wiring) : List (String × List Nat) :=
  [("monitored-db", [w.sqlConnId, w.dbMonitorId]),
   ("sql-db", [w.monitoredDBId]),
   ("lock-metrics-notifier", [w.clockId, w.metronId, w.sqlDBId]),
   ("db-metrics-notifier", [w.clockId, w.metronId, w.sqlDBId, w.dbMonitorId]),
   ("request-metrics-notifier", [w.clockId, w.metronId]),
   ("lock-pick", [w.sqlDBId, w.clockId, w.metronId]),
   ("burglar", [w.sqlDBId, w.lockPickId, w.clockId, w.metronId]),
   ("handler", [w.sqlDBId, w.lockPickId, w.requestNotifierId, w.exitCh]),
   ("server", [w.handlerId])]

/-- The component names that were handed a given object identity. -/
def componentsGiven (w : Wiring) (objId : Nat) : List String :=
  ((componentArgIds w).filter (fun p => p.2.contains objId)).map (fun p => p.1)

/-- Signals sent to the ifrit process monitor. -/
inductive OsSignal
  | interrupt
deriving DecidableEq

/-- A step of the shutdown-watching goroutine spawned by `main`. -/
inductive WatchStep
  | receive (ch : Nat)
  | log (msg : String)
  | signalMonitor (s : OsSignal)
deriving DecidableEq

/-- The body of the goroutine `main` spawns after invoking the run group: it
performs a single receive on `exitCh`, logs, and signals the monitor with
`os.Interrupt`; then the goroutine ends, so no further value is ever
received on the channel. -/
def shutdownWatcher (w : Wiring) : List WatchStep :=
  [.receive w.exitCh, .log "shutting-down-due-to-unrecoverable-error",
   .signalMonitor .interrupt]

/-- Observable startup events of `main`, in program order.  `fatalPanic`
models `logger.Fatal` (log then panic: deferred calls still run);
`exitNoDefer` models `os.Exit(1)` (deferred calls are skipped). -/
inductive Ev
  | metronInit
  | newClock
  | sqlOpen
  | setMaxIdleConns (n : Nat)
  | setMaxOpenConns (n : Nat)
  | ping
  | createLockTable
  | construct (componentName : String)
  | runGroup (memberNames : List String)
  | fatalPanic (msg : String)
  | exitNoDefer (msg : String)
  | closeConn
deriving DecidableEq

/-- Events from invoking the run group onward. -/
def groupTrace (cfg : LocketConfig) (env : Env) : List Ev :=
  .runGroup (membersOf cfg) ::
    (if env.groupRunOk then [] else [.exitNoDefer "exited-with-failure"])

/-- Events of `main` after `sql.Open` succeeded (pool limits, ping, schema
creation, component construction, run group), not including the deferred
`sqlConn.Close()`. -/
def postOpenTrace (cfg : LocketConfig) (env : Env) : List Ev :=
  .setMaxIdleConns cfg.maxOpenDatabaseConnections ::
  .setMaxOpenConns cfg.maxOpenDatabaseConnections ::
  .ping ::
  (if env.pingOk then
    .construct "query-monitor" :: .construct "monitored-db" :: .construct "sql-db" ::
    .createLockTable ::
    (if env.createLockTableOk then
      (if env.listenAddrOk then
        (if env.lookupPortOk then
          (if env.tlsOk then
            .construct "lock-metrics-notifier" :: .construct "db-metrics-notifier" ::
            .construct "request-metrics-notifier" :: .construct "lock-pick" ::
            .construct "burglar" :: .construct "handler" :: .construct "server" ::
            (if cfg.enableConsulServiceRegistration then
              (if env.consulClientOk then
                .construct "consul-client" :: .construct "registration-runner" ::
                  groupTrace cfg env
              else [.fatalPanic "new-consul-client-failed"])
            else groupTrace cfg env)
          else [.fatalPanic "invalid-tls-config"])
        else [.fatalPanic "failed-invalid-listen-port"])
      else [.fatalPanic "failed-invalid-listen-address"])
    else [.fatalPanic "failed-to-create-lock-table"])
  else [.fatalPanic "sql-failed-to-connect"])

/-- Whether control reaches `grouper.NewOrdered`/`ifrit.Invoke` (every check
between the ping and the run group succeeded). -/
def reachesGroup (cfg : LocketConfig) (env : Env) : Bool :=
  env.pingOk && env.createLockTableOk && env.listenAddrOk && env.lookupPortOk
    && env.tlsOk && (!cfg.enableConsulServiceRegistration || env.consulClientOk)

/-- Whether the deferred `sqlConn.Close()` runs once `sql.Open` has
succeeded: it does on a normal return and on every `logger.Fatal` panic, but
not when the run group fails and `main` calls `os.Exit(1)`. -/
def defersRunAfterOpen (cfg : LocketConfig) (env : Env) : Bool :=
  !(reachesGroup cfg env && !env.groupRunOk)

/-- The full startup event trace of `main` for a loaded configuration and a
given set of external-step outcomes. -/
def mainTrace (cfg : LocketConfig) (env : Env) : List Ev :=
  if env.metronOk then
    .metronInit :: .newClock ::
      (if env.connStringOk then
        (if env.sqlOpenOk then
          .sqlOpen ::
            (postOpenTrace cfg env
              ++ (if defersRunAfterOpen cfg env then [.closeConn] else []))
        else [.fatalPanic "failed-to-open-sql"])
      else [.fatalPanic "invalid-db-connection-string"])
  else [.exitNoDefer "failed-to-initialize-metron-client"]

/-- The fields of a parsed mysql DSN (`mysql.Config`) that
`appendExtraConnectionStringParam` reads or writes; the rest of the DSN is
kept uninterpreted. -/
structure MySQLConfig where
  timeout : Nat
  readTimeout : Nat
  writeTimeout : Nat
  tlsConfigName : String
  rest : String
deriving DecidableEq

/-- A `tls.Config` as built for the mysql CA case: whether verification is
skipped, and the bytes appended to the root CA pool. -/
structure TLSConf where
  insecureSkipVerify : Bool
  rootCAs : List Nat
deriving DecidableEq

/-- The external collaborators `appendExtraConnectionStringParam` calls:
`mysql.ParseDSN`/`FormatDSN`, `pq.ParseURL`, `ioutil.ReadFile`, and
`x509.CertPool.AppendCertsFromPEM` (whether the PEM bytes parsed). -/
structure SQLExternals where
  mysqlParseDSN : String → Except String MySQLConfig
  mysqlFormatDSN : MySQLConfig → String
  pqParseURL : String → Except String String
  readFile : String → Except String (List Nat)
  appendCertsFromPEM : List Nat → Bool

/-- One nanosecond-count minute, `time.Minute`. -/
def timeMinute : Nat := 60000000000

/-- `appendExtraConnectionStringParam(logger, driverName,
databaseConnectionString, sqlCACertFile)`.  The result is the returned
connection string together with the TLS configurations registered via
`mysql.RegisterTLSConfig` as a side effect; `.error` models the
`logger.Fatal` paths. -/
def appendExtraConnectionStringParam (ext : SQLExternals)
    (driverName databaseConnectionString sqlCACertFile : String) :
    Except String (String × List (String × TLSConf)) :=
  if driverName = "mysql" then
    match ext.mysqlParseDSN databaseConnectionString with
    | .error _ => .error "invalid-db-connection-string"
    | .ok cfg0 =>
      let withTLS : Except String (MySQLConfig × List (String × TLSConf)) :=
        if sqlCACertFile = "" then .ok (cfg0, [])
        else
          match ext.readFile sqlCACertFile with
          | .error _ => .error "failed-to-read-sql-ca-file"
          | .ok certBytes =>
            if ext.appendCertsFromPEM certBytes then
              .ok ({ cfg0 with tlsConfigName := "bbs-tls" },
                   [("bbs-tls", { insecureSkipVerify := false, rootCAs := certBytes })])
            else .error "failed-to-parse-sql-ca"
      match withTLS with
      | .error e => .error e
      | .ok (cfg1, regs) =>
        .ok (ext.mysqlFormatDSN
              { cfg1 with
                  timeout := 10 * timeMinute
                  readTimeout := 10 * timeMinute
                  writeTimeout := 10 * timeMinute },
             regs)
  else if driverName = "postgres" then
    match ext.pqParseURL databaseConnectionString with
    | .error _ => .error "invalid-db-connection-string"
    | .ok parsed =>
      if sqlCACertFile = "" then .ok (parsed ++ " sslmode=disable", [])
      else .ok (parsed ++ " sslmode=verify-ca sslrootcert=" ++ sqlCACertFile, [])
  else .ok (databaseConnectionString, [])

/-! ## The lock-acquisition policy.

The Lock Pick and Lock Store implementations live outside this source tree
(`main` only constructs and wires them), so they are modelled from the
specification (§3, §4.1, §4.2): a lock record per key, and an `acquire`
operation that creates the record when the key is absent, takes over an
expired record, renews when the caller already owns the key, and otherwise
fails `AlreadyHeld` carrying the current owner (or `KindMismatch` when the
caller's kind conflicts with the live record).  Concurrent calls are
modelled by their linearisation: the store serialises racing conditional
writes, so any concurrent burst executes as some sequence of atomic
`acquire` steps. -/

/-- Modelled from the spec: the `kind` of a record, `LOCK` or `PRESENCE`. -/
inductive LockKind
  | lock
  | presence
deriving DecidableEq

/-- Modelled from the spec: the persisted lock record (§3). -/
structure LockRecord where
  key : String
  owner : String
  value : String
  kind : LockKind
  modificationIndex : Nat
  ttl : Nat
  deadline : Nat
deriving DecidableEq

/-- Modelled from the spec: the lock table, at most one live record per key
(maintained by the operations below). -/
abbrev LockStore := List LockRecord

/-- Modelled from the spec: `fetch(key)` as a plain lookup. -/
def fetchRecord (s : LockStore) (key : String) : Option LockRecord :=
  s.find? (fun r => r.key == key)

/-- Replace the record for `r.key` by `r`. -/
def upsertRecord (s : LockStore) (r : LockRecord) : LockStore :=
  r :: s.filter (fun x => !(x.key == r.key))

/-- Modelled from the spec: the outcome of an `acquire` call (§4.2, §7);
`alreadyHeld` carries the current owner. -/
inductive AcquireOutcome
  | acquired (r : LockRecord)
  | alreadyHeld (currentOwner : String)
  | kindMismatch
  | invalidTTL
deriving DecidableEq

/-- Modelled from the spec: the record written by a create or takeover at
time `now`, with the given modification index. -/
def freshRecord (key owner value : String) (kind : LockKind) (ttl now idx : Nat) :
    LockRecord :=
  { key := key, owner := owner, value := value, kind := kind,
    modificationIndex := idx, ttl := ttl, deadline := now + ttl }

/-- Modelled from the spec: the record after the current owner renews at time
`now`: value, ttl and deadline refreshed, modification index bumped, key,
owner and kind unchanged. -/
def renewedRecord (prev : LockRecord) (value : String) (ttl now : Nat) :
    LockRecord :=
  { prev with
      value := value
      modificationIndex := prev.modificationIndex + 1
      ttl := ttl
      deadline := now + ttl }

/-- Modelled from the spec: `acquire(key, owner, value, kind, ttl)` at time
`now` (§4.1 `insertOrTakeOver` composed with §4.2's validation): zero TTL is
rejected; an absent key is created; an expired record (`deadline < now`) is
taken over with a bumped modification index; a live record held by another
owner fails `AlreadyHeld` naming that owner; a live record of another kind
fails `KindMismatch`; re-acquisition by the current owner is a renewal. -/
def acquire (s : LockStore) (key owner value : String) (kind : LockKind)
    (ttl now : Nat) : AcquireOutcome × LockStore :=
  if ttl = 0 then (.invalidTTL, s)
  else
    match fetchRecord s key with
    | none =>
      let r := freshRecord key owner value kind ttl now 1
      (.acquired r, upsertRecord s r)
    | some prev =>
      if prev.deadline < now then
        let r := freshRecord key owner value kind ttl now (prev.modificationIndex + 1)
        (.acquired r, upsertRecord s r)
      else if prev.owner ≠ owner then (.alreadyHeld prev.owner, s)
      else if prev.kind ≠ kind then (.kindMismatch, s)
      else
        let r := renewedRecord prev value ttl now
        (.acquired r, upsertRecord s r)

/-- An `Acquire` call for a fixed key: its caller and arguments. -/
structure AcqCall where
  owner : String
  value : String
  kind : LockKind
  ttl : Nat
deriving DecidableEq

/-- Run a linearised sequence of `Acquire` calls for one key at time `now`,
returning the outcome of each call in order. -/
def runAcquires (s : LockStore) (key : String) (now : Nat) :
    List AcqCall → List AcquireOutcome
  | [] => []
  | c :: cs =>
    let step := acquire s key c.owner c.value c.kind c.ttl now
    step.1 :: runAcquires step.2 key now cs

/-- Whether an outcome is a success. -/
def isAcquired : AcquireOutcome → Bool
  | .acquired _ => true
  | _ => false

/-! ## Concrete instances used by witnesses and counterexamples. -/

/-- A sample configuration: postgres driver, no consul registration, no
debug server. -/
def cfgEx : LocketConfig :=
  { listenAddress := "0.0.0.0:8891"
    consulCluster := ""
    databaseDriver := "postgres"
    databaseConnectionString := "postgres://locket@example.com/locket"
    sqlCACertFile := ""
    maxOpenDatabaseConnections := 200
    reportInterval := 60000000000
    enableConsulServiceRegistration := false
    debugAddress := ""
    certFile := "server.crt"
    keyFile := "server.key"
    caFile := "ca.crt" }

/-- A second sample configuration, differing from `cfgEx` in the report
interval and enabling both optional run-group members. -/
def cfgEx2 : LocketConfig :=
  { cfgEx with
      reportInterval := 30000000000
      enableConsulServiceRegistration := true
      debugAddress := "127.0.0.1:17017" }

/-- All external startup steps succeed. -/
def envAllOk : Env :=
  { metronOk := true
    connStringOk := true
    sqlOpenOk := true
    pingOk := true
    createLockTableOk := true
    listenAddrOk := true
    lookupPortOk := true
    tlsOk := true
    consulClientOk := true
    groupRunOk := true }

/-- All startup steps succeed but the run group later exits with an error. -/
def envGroupFails : Env := { envAllOk with groupRunOk := false }

/-- The SQL ping fails. -/
def envPingFails : Env := { envAllOk with pingOk := false }

/-- Creating the lock table fails. -/
def envNoTable : Env := { envAllOk with createLockTableOk := false }

/-- A sample instantiation of the external DSN/URL collaborators. -/
def extEx : SQLExternals :=
  { mysqlParseDSN := fun s =>
      .ok { timeout := 0, readTimeout := 0, writeTimeout := 0,
            tlsConfigName := "", rest := s }
    mysqlFormatDSN := fun c => c.rest
    pqParseURL := fun s => .ok ("host=h dbname=" ++ s)
    readFile := fun _ => .ok [1, 2, 3]
    appendCertsFromPEM := fun _ => true }

/-- Two competing acquisition calls for the mutual-exclusion scenarios. -/
def callA : AcqCall := { owner := "owner-a", value := "", kind := .lock, ttl := 10 }

/-- The second caller, with a distinct owner. -/
def callB : AcqCall := { owner := "owner-b", value := "", kind := .lock, ttl := 10 }

/-- A parsed mysql DSN used by witnesses. -/
def mysqlCfgEx : MySQLConfig :=
  { timeout := 0, readTimeout := 0, writeTimeout := 0,
    tlsConfigName := "", rest := "tcp(h:3306)/db" }

/-! ## Helper lemmas -/

/-- `clock.NewClock` happens before `sql.Open`; nothing after the open
allocates another clock. -/
theorem newClock_not_mem_postOpenTrace (cfg : LocketConfig) (env : Env) :
    Ev.newClock ∉ postOpenTrace cfg env := by
  unfold postOpenTrace groupTrace
  split_ifs <;> simp

/-- The deferred close is not an event of the post-open body; it is appended
at the end exactly when deferred calls run. -/
theorem closeConn_not_mem_postOpenTrace (cfg : LocketConfig) (env : Env) :
    Ev.closeConn ∉ postOpenTrace cfg env := by
  unfold postOpenTrace groupTrace
  split_ifs <;> simp

/-- Once the metron client initialises, the startup trace contains exactly
one `clock.NewClock` call. -/
theorem mainTrace_clock_once (cfg : LocketConfig) (env : Env)
    (hm : env.metronOk = true) :
    (mainTrace cfg env).count Ev.newClock = 1 := by
  have h1 := newClock_not_mem_postOpenTrace cfg env
  unfold mainTrace
  rw [hm]
  split_ifs <;>
    simp_all [List.count_cons, List.count_append, List.count_eq_zero]

/-- Looking up a key at the head of the store. -/
theorem fetchRecord_cons_self (r : LockRecord) (rest : LockStore) (key : String)
    (hk : r.key = key) : fetchRecord (r :: rest) key = some r := by
  simp [fetchRecord, List.find?, hk]

/-- Store invariant for a linearised burst of acquisitions: while a
non-expired record for `key` is owned by `w` (of kind `k0`), every further
call in the burst by `w` succeeds as a renewal and every call by any other
owner fails `AlreadyHeld` naming `w`; the record stays owned by `w`
throughout. -/
theorem runAcquires_held (key : String) (now : Nat) (w : String) (k0 : LockKind) :
    ∀ (calls : List AcqCall) (r : LockRecord) (rest : LockStore),
      (∀ c ∈ calls, 0 < c.ttl ∧ c.kind = k0) →
      r.key = key → r.owner = w → r.kind = k0 → now ≤ r.deadline →
      List.Forall₂
        (fun (c : AcqCall) (out : AcquireOutcome) =>
          (c.owner = w → isAcquired out = true) ∧
          (c.owner ≠ w → out = AcquireOutcome.alreadyHeld w))
        calls (runAcquires (r :: rest) key now calls) := by
  intro calls
  induction calls with
  | nil => intro r rest _ _ _ _ _; simp [runAcquires]
  | cons c cs ih =>
    intro r rest hcalls hk ho hkind hdl
    obtain ⟨⟨httl, hck⟩, hcs⟩ := List.forall_mem_cons.mp hcalls
    have hfetch := fetchRecord_cons_self r rest key hk
    by_cases how : c.owner = w
    · have hacq : acquire (r :: rest) key c.owner c.value c.kind c.ttl now =
          (AcquireOutcome.acquired (renewedRecord r c.value c.ttl now),
           upsertRecord (r :: rest) (renewedRecord r c.value c.ttl now)) := by
        simp [acquire, hfetch, Nat.not_lt.mpr hdl, how, ho, hkind, hck,
          Nat.pos_iff_ne_zero.mp httl]
      simp only [runAcquires, hacq]
      refine List.Forall₂.cons ⟨fun _ => rfl, fun hne => absurd how hne⟩ ?_
      have hk' : (renewedRecord r c.value c.ttl now).key = key := by
        simpa [renewedRecord] using hk
      have ho' : (renewedRecord r c.value c.ttl now).owner = w := by
        simpa [renewedRecord] using ho
      have hkind' : (renewedRecord r c.value c.ttl now).kind = k0 := by
        simpa [renewedRecord] using hkind
      have hdl' : now ≤ (renewedRecord r c.value c.ttl now).deadline := by
        simp [renewedRecord]
      have htail := ih (renewedRecord r c.value c.ttl now)
        ((r :: rest).filter (fun x => !(x.key == key))) hcs hk' ho' hkind' hdl'
      simpa [upsertRecord, hk'] using htail
    · have hacq : acquire (r :: rest) key c.owner c.value c.kind c.ttl now =
          (AcquireOutcome.alreadyHeld w, r :: rest) := by
        simp [acquire, hfetch, Nat.not_lt.mpr hdl, ho, Ne.symm how,
          Nat.pos_iff_ne_zero.mp httl]
      simp only [runAcquires, hacq]
      exact List.Forall₂.cons ⟨fun h => absurd h how, fun _ => rfl⟩
        (ih r rest hcs hk ho hkind hdl)

/-! ## Claims -/

/-- Claim C1, counterexample to the literal statement: in the burst
`[Acquire(K, ownerA), Acquire(K, ownerA), Acquire(K, ownerB)]` with the two
owners distinct and all calls issued before any succeeds, two calls succeed
(the second call by the winning owner is an idempotent re-acquisition, i.e.
a renewal, and also succeeds), so "at most one call succeeds" fails. -/
theorem acquire_at_most_one_counterexample :
    callA.owner ≠ callB.owner ∧
    (runAcquires [] "job-17" 0 [callA, callA, callB]).countP isAcquired = 2 ∧
    ¬ ((runAcquires [] "job-17" 0 [callA, callA, callB]).countP isAcquired ≤ 1) := by
  decide

/-- Claim C1 (amended): across any linearisation of a concurrent burst of
`Acquire(K, …)` calls of one kind with positive TTLs, starting with `K`
unheld, calls by at most one owner succeed: the first linearised call wins
and its owner holds the lock; every later call by a different owner fails
`AlreadyHeld` naming the winning owner; later calls by the winning owner
succeed (as renewals). -/
theorem acquire_mutual_exclusion_amended (key : String) (now : Nat)
    (s : LockStore) (c0 : AcqCall) (cs : List AcqCall)
    (habsent : fetchRecord s key = none)
    (h0 : 0 < c0.ttl)
    (hcs : ∀ c ∈ cs, 0 < c.ttl ∧ c.kind = c0.kind) :
    ∃ r0 outs,
      runAcquires s key now (c0 :: cs) = AcquireOutcome.acquired r0 :: outs ∧
      r0.owner = c0.owner ∧
      List.Forall₂
        (fun (c : AcqCall) (out : AcquireOutcome) =>
          (c.owner = c0.owner → isAcquired out = true) ∧
          (c.owner ≠ c0.owner → out = AcquireOutcome.alreadyHeld c0.owner))
        cs outs := by
  have hacq : acquire s key c0.owner c0.value c0.kind c0.ttl now =
      (AcquireOutcome.acquired (freshRecord key c0.owner c0.value c0.kind c0.ttl now 1),
       upsertRecord s (freshRecord key c0.owner c0.value c0.kind c0.ttl now 1)) := by
    simp [acquire, habsent, Nat.pos_iff_ne_zero.mp h0]
  refine ⟨freshRecord key c0.owner c0.value c0.kind c0.ttl now 1,
    runAcquires (upsertRecord s (freshRecord key c0.owner c0.value c0.kind c0.ttl now 1))
      key now cs, ?_, rfl, ?_⟩
  · simp only [runAcquires, hacq]
  · have := runAcquires_held key now c0.owner c0.kind cs
      (freshRecord key c0.owner c0.value c0.kind c0.ttl now 1)
      (s.filter (fun x => !(x.key == key))) hcs rfl rfl rfl
      (Nat.le_add_right now c0.ttl)
    simpa [upsertRecord, freshRecord] using this

/-- Claim C1 witness: the amended theorem at the concrete race of `callA`
then `callB` over a fresh key. -/
theorem acquire_mutual_exclusion_amended_witness :
    ∃ r0 outs,
      runAcquires [] "job-17" 0 [callA, callB] =
        AcquireOutcome.acquired r0 :: outs ∧
      r0.owner = callA.owner ∧
      List.Forall₂
        (fun (c : AcqCall) (out : AcquireOutcome) =>
          (c.owner = callA.owner → isAcquired out = true) ∧
          (c.owner ≠ callA.owner → out = AcquireOutcome.alreadyHeld callA.owner))
        [callB] outs :=
  acquire_mutual_exclusion_amended "job-17" 0 [] callA [callB] rfl (by decide)
    (by decide)

/-- Claim C2: the Lock Pick and the Burglar are constructed with the same
single clock instance — both record the identity of the one clock `main`
allocates — and once the metron client initialises the startup trace
contains exactly one `clock.NewClock` call. -/
theorem clock_shared_by_lockpick_and_burglar (cfg : LocketConfig) (env : Env)
    (hm : env.metronOk = true) :
    (mkWiring cfg).lockPick.clock = (mkWiring cfg).clockId ∧
    (mkWiring cfg).burglar.clock = (mkWiring cfg).clockId ∧
    (mainTrace cfg env).count Ev.newClock = 1 :=
  ⟨rfl, rfl, mainTrace_clock_once cfg env hm⟩

/-- Claim C2 witness: the theorem at the sample configuration with all
startup steps succeeding. -/
theorem clock_shared_by_lockpick_and_burglar_witness :
    (mkWiring cfgEx).lockPick.clock = (mkWiring cfgEx).clockId ∧
    (mkWiring cfgEx).burglar.clock = (mkWiring cfgEx).clockId ∧
    (mainTrace cfgEx envAllOk).count Ev.newClock = 1 :=
  clock_shared_by_lockpick_and_burglar cfgEx envAllOk rfl

/-- Claim C3: the handler is given the exit channel `main` makes just before
constructing it; the watching goroutine receives on exactly that channel and
then signals the top-level monitor with an interrupt; and the handler is the
only constructed component that was handed the channel, so it is the only
component-raised path to full shutdown. -/
theorem handler_exit_channel_is_sole_fatal_path (cfg : LocketConfig) :
    (mkWiring cfg).handler.exitCh = (mkWiring cfg).exitCh ∧
    shutdownWatcher (mkWiring cfg) =
      [WatchStep.receive (mkWiring cfg).exitCh,
       WatchStep.log "shutting-down-due-to-unrecoverable-error",
       WatchStep.signalMonitor OsSignal.interrupt] ∧
    componentsGiven (mkWiring cfg) (mkWiring cfg).exitCh = ["handler"] :=
  ⟨rfl, rfl, rfl⟩

/-- Claim C4, counterexample: the interval passed to the Burglar is the
package constant `locket.RetryInterval`, not a value taken from the loaded
configuration — two configurations differing in their only interval field
yield the same constant Burglar interval. -/
theorem burglar_interval_not_from_config_counterexample :
    (mkWiring cfgEx).burglar.interval = IntervalSource.retryIntervalConst ∧
    (mkWiring cfgEx2).burglar.interval = IntervalSource.retryIntervalConst ∧
    cfgEx.reportInterval ≠ cfgEx2.reportInterval ∧
    (mkWiring cfgEx).burglar.interval ≠
      IntervalSource.fromConfig cfgEx.reportInterval :=
  ⟨rfl, rfl, by decide, by decide⟩

/-- Claim C4 (amended): for every configuration the Burglar is constructed
with the fixed package constant `locket.RetryInterval` as its cycle
interval; by contrast the metrics notifiers do take their interval from the
configuration's `ReportInterval`. -/
theorem burglar_interval_retry_constant (cfg : LocketConfig) :
    (mkWiring cfg).burglar.interval = IntervalSource.retryIntervalConst ∧
    (mkWiring cfg).lockMetricsNotifier.interval =
      IntervalSource.fromConfig cfg.reportInterval :=
  ⟨rfl, rfl⟩

/-- Claim C5, counterexample to the literal statement: when the run group
exits with an error, `main` calls `os.Exit(1)`, which skips deferred calls,
so the successfully opened SQL connection is not closed on that shutdown
path. -/
theorem sql_close_skipped_on_group_failure_counterexample :
    Ev.sqlOpen ∈ mainTrace cfgEx envGroupFails ∧
    Ev.exitNoDefer "exited-with-failure" ∈ mainTrace cfgEx envGroupFails ∧
    Ev.closeConn ∉ mainTrace cfgEx envGroupFails := by
  decide

/-- Claim C5 (amended): after a successful open, both the max-idle and
max-open pool limits are set to the configured `MaxOpenDatabaseConnections`
and the connection is pinged before any component is constructed (the only
events before the ping are listed); a ping failure aborts startup with a
fatal log and nothing further is constructed or run; the deferred close runs
whenever the run group finishes without error, but is skipped when the run
group fails and the process exits through `os.Exit(1)`. -/
theorem sql_connection_startup_amended (cfg : LocketConfig) (env : Env)
    (hm : env.metronOk = true) (hcs : env.connStringOk = true)
    (hopen : env.sqlOpenOk = true) :
    (∃ tail, mainTrace cfg env =
        [Ev.metronInit, Ev.newClock, Ev.sqlOpen,
         Ev.setMaxIdleConns cfg.maxOpenDatabaseConnections,
         Ev.setMaxOpenConns cfg.maxOpenDatabaseConnections] ++ Ev.ping :: tail) ∧
    (env.pingOk = false →
      mainTrace cfg env =
        [Ev.metronInit, Ev.newClock, Ev.sqlOpen,
         Ev.setMaxIdleConns cfg.maxOpenDatabaseConnections,
         Ev.setMaxOpenConns cfg.maxOpenDatabaseConnections, Ev.ping,
         Ev.fatalPanic "sql-failed-to-connect", Ev.closeConn]) ∧
    (env.groupRunOk = true → Ev.closeConn ∈ mainTrace cfg env) ∧
    (reachesGroup cfg env = true → env.groupRunOk = false →
      Ev.closeConn ∉ mainTrace cfg env) := by
  refine ⟨?_, ?_, ?_, ?_⟩
  · refine ⟨(postOpenTrace cfg env).drop 3
      ++ (if defersRunAfterOpen cfg env then [Ev.closeConn] else []), ?_⟩
    simp [mainTrace, hm, hcs, hopen, postOpenTrace]
  · intro hping
    simp [mainTrace, hm, hcs, hopen, postOpenTrace, defersRunAfterOpen,
      reachesGroup, hping]
  · intro hg
    have hd : defersRunAfterOpen cfg env = true := by
      simp [defersRunAfterOpen, hg]
    simp [mainTrace, hm, hcs, hopen, hd]
  · intro hr hg
    have hd : defersRunAfterOpen cfg env = false := by
      simp [defersRunAfterOpen, hr, hg]
    simp [mainTrace, hm, hcs, hopen, hd, closeConn_not_mem_postOpenTrace cfg env]

/-- Claim C5 witness: the amended theorem at the sample configuration with
every startup step succeeding. -/
theorem sql_connection_startup_amended_witness :
    (∃ tail, mainTrace cfgEx envAllOk =
        [Ev.metronInit, Ev.newClock, Ev.sqlOpen,
         Ev.setMaxIdleConns cfgEx.maxOpenDatabaseConnections,
         Ev.setMaxOpenConns cfgEx.maxOpenDatabaseConnections] ++ Ev.ping :: tail) ∧
    (envAllOk.pingOk = false →
      mainTrace cfgEx envAllOk =
        [Ev.metronInit, Ev.newClock, Ev.sqlOpen,
         Ev.setMaxIdleConns cfgEx.maxOpenDatabaseConnections,
         Ev.setMaxOpenConns cfgEx.maxOpenDatabaseConnections, Ev.ping,
         Ev.fatalPanic "sql-failed-to-connect", Ev.closeConn]) ∧
    (envAllOk.groupRunOk = true → Ev.closeConn ∈ mainTrace cfgEx envAllOk) ∧
    (reachesGroup cfgEx envAllOk = true → envAllOk.groupRunOk = false →
      Ev.closeConn ∉ mainTrace cfgEx envAllOk) :=
  sql_connection_startup_amended cfgEx envAllOk rfl rfl rfl

/-- Claim C6: when creating the lock table fails at startup, the trace ends
in the fatal log (the deferred close still runs as the panic unwinds) and no
request-serving component — handler, gRPC server — is ever constructed, nor
is the run group started. -/
theorem create_lock_table_failure_is_fatal (cfg : LocketConfig) (env : Env)
    (hm : env.metronOk = true) (hcs : env.connStringOk = true)
    (hopen : env.sqlOpenOk = true) (hping : env.pingOk = true)
    (htab : env.createLockTableOk = false) :
    mainTrace cfg env =
      [Ev.metronInit, Ev.newClock, Ev.sqlOpen,
       Ev.setMaxIdleConns cfg.maxOpenDatabaseConnections,
       Ev.setMaxOpenConns cfg.maxOpenDatabaseConnections, Ev.ping,
       Ev.construct "query-monitor", Ev.construct "monitored-db",
       Ev.construct "sql-db", Ev.createLockTable,
       Ev.fatalPanic "failed-to-create-lock-table", Ev.closeConn] ∧
    Ev.construct "server" ∉ mainTrace cfg env ∧
    Ev.construct "handler" ∉ mainTrace cfg env ∧
    (∀ names, Ev.runGroup names ∉ mainTrace cfg env) := by
  have heq : mainTrace cfg env =
      [Ev.metronInit, Ev.newClock, Ev.sqlOpen,
       Ev.setMaxIdleConns cfg.maxOpenDatabaseConnections,
       Ev.setMaxOpenConns cfg.maxOpenDatabaseConnections, Ev.ping,
       Ev.construct "query-monitor", Ev.construct "monitored-db",
       Ev.construct "sql-db", Ev.createLockTable,
       Ev.fatalPanic "failed-to-create-lock-table", Ev.closeConn] := by
    simp [mainTrace, hm, hcs, hopen, postOpenTrace, defersRunAfterOpen,
      reachesGroup, hping, htab]
  refine ⟨heq, ?_, ?_, ?_⟩ <;> simp [heq]

/-- Claim C6 witness: the theorem at the sample configuration with the
lock-table creation failing. -/
theorem create_lock_table_failure_is_fatal_witness :
    mainTrace cfgEx envNoTable =
      [Ev.metronInit, Ev.newClock, Ev.sqlOpen,
       Ev.setMaxIdleConns cfgEx.maxOpenDatabaseConnections,
       Ev.setMaxOpenConns cfgEx.maxOpenDatabaseConnections, Ev.ping,
       Ev.construct "query-monitor", Ev.construct "monitored-db",
       Ev.construct "sql-db", Ev.createLockTable,
       Ev.fatalPanic "failed-to-create-lock-table", Ev.closeConn] ∧
    Ev.construct "server" ∉ mainTrace cfgEx envNoTable ∧
    Ev.construct "handler" ∉ mainTrace cfgEx envNoTable ∧
    (∀ names, Ev.runGroup names ∉ mainTrace cfgEx envNoTable) :=
  create_lock_table_failure_is_fatal cfgEx envNoTable rfl rfl rfl rfl rfl

/-- Claim C7: the handler is constructed over the sql store and the Lock
Pick; the Burglar is constructed directly over the same sql store and the
same Lock Pick instance; the gRPC server wraps the handler; and both the
server and the Burglar are members of the run group, scheduled as separate
concurrent tasks. -/
theorem control_flow_wiring (cfg : LocketConfig) :
    (mkWiring cfg).handler.sqlDB = (mkWiring cfg).sqlDBId ∧
    (mkWiring cfg).handler.lockPick = (mkWiring cfg).lockPickId ∧
    (mkWiring cfg).burglar.sqlDB = (mkWiring cfg).sqlDBId ∧
    (mkWiring cfg).burglar.lockPick = (mkWiring cfg).lockPickId ∧
    (mkWiring cfg).server.handler = (mkWiring cfg).handlerId ∧
    "server" ∈ (mkWiring cfg).members ∧
    "burglar" ∈ (mkWiring cfg).members := by
  refine ⟨rfl, rfl, rfl, rfl, rfl, ?_, ?_⟩ <;>
    · simp only [mkWiring, membersOf]
      split_ifs <;> simp

/-- Claim C8: for the postgres driver with a parseable URL, the returned
string is the parsed URL with the sslmode suffix chosen by whether a CA file
is configured; any driver other than mysql and postgres passes the
connection string through unchanged. -/
theorem appendExtra_postgres_behavior (ext : SQLExternals)
    (conn ca parsed : String)
    (hp : ext.pqParseURL conn = .ok parsed) :
    (appendExtraConnectionStringParam ext "postgres" conn "" =
        .ok (parsed ++ " sslmode=disable", [])) ∧
    (ca ≠ "" →
      appendExtraConnectionStringParam ext "postgres" conn ca =
        .ok (parsed ++ " sslmode=verify-ca sslrootcert=" ++ ca, [])) ∧
    (∀ driver : String, driver ≠ "mysql" → driver ≠ "postgres" →
      appendExtraConnectionStringParam ext driver conn ca = .ok (conn, [])) := by
  refine ⟨?_, ?_, ?_⟩
  · simp [appendExtraConnectionStringParam, hp]
  · intro hca
    simp [appendExtraConnectionStringParam, hp, hca]
  · intro driver h1 h2
    simp [appendExtraConnectionStringParam, h1, h2]

/-- Claim C8 witness: the theorem at a sample URL parser, with and without a
CA file, and for an unrelated driver name. -/
theorem appendExtra_postgres_behavior_witness :
    (appendExtraConnectionStringParam extEx "postgres" "mydb" "" =
        .ok ("host=h dbname=mydb" ++ " sslmode=disable", [])) ∧
    (appendExtraConnectionStringParam extEx "postgres" "mydb" "ca.pem" =
        .ok ("host=h dbname=mydb" ++ " sslmode=verify-ca sslrootcert=" ++ "ca.pem", [])) ∧
    (appendExtraConnectionStringParam extEx "sqlite3" "mydb" "ca.pem" =
        .ok ("mydb", [])) :=
  have h := appendExtra_postgres_behavior extEx "mydb" "ca.pem" "host=h dbname=mydb" rfl
  ⟨h.1, h.2.1 (by decide), h.2.2 "sqlite3" (by decide) (by decide)⟩

/-- Claim C9: for the mysql driver with a parseable DSN, the returned DSN is
the parsed configuration re-serialised with connect, read and write timeouts
all set to 10 minutes; when a CA file is configured (and its PEM parses) the
configuration's TLS setting is "bbs-tls" and that name is registered to a
TLS configuration holding the CA bytes with certificate verification
enabled (`InsecureSkipVerify` false). -/
theorem appendExtra_mysql_behavior (ext : SQLExternals) (conn ca : String)
    (cfg0 : MySQLConfig) (certs : List Nat)
    (hp : ext.mysqlParseDSN conn = .ok cfg0) :
    (appendExtraConnectionStringParam ext "mysql" conn "" =
        .ok (ext.mysqlFormatDSN
              { cfg0 with
                  timeout := 10 * timeMinute
                  readTimeout := 10 * timeMinute
                  writeTimeout := 10 * timeMinute }, [])) ∧
    (ca ≠ "" → ext.readFile ca = .ok certs →
      ext.appendCertsFromPEM certs = true →
      appendExtraConnectionStringParam ext "mysql" conn ca =
        .ok (ext.mysqlFormatDSN
              { cfg0 with
                  tlsConfigName := "bbs-tls"
                  timeout := 10 * timeMinute
                  readTimeout := 10 * timeMinute
                  writeTimeout := 10 * timeMinute },
             [("bbs-tls", { insecureSkipVerify := false, rootCAs := certs })])) := by
  refine ⟨?_, ?_⟩
  · simp [appendExtraConnectionStringParam, hp]
  · intro hca hread happend
    simp [appendExtraConnectionStringParam, hp, hca, hread, happend]

/-- Claim C9 witness: the theorem at a sample DSN parser, with and without a
CA file. -/
theorem appendExtra_mysql_behavior_witness :
    (appendExtraConnectionStringParam extEx "mysql" "tcp(h:3306)/db" "" =
        .ok (extEx.mysqlFormatDSN
              { mysqlCfgEx with
                  timeout := 10 * timeMinute
                  readTimeout := 10 * timeMinute
                  writeTimeout := 10 * timeMinute }, [])) ∧
    (appendExtraConnectionStringParam extEx "mysql" "tcp(h:3306)/db" "ca.pem" =
        .ok (extEx.mysqlFormatDSN
              { mysqlCfgEx with
                  tlsConfigName := "bbs-tls"
                  timeout := 10 * timeMinute
                  readTimeout := 10 * timeMinute
                  writeTimeout := 10 * timeMinute },
             [("bbs-tls", { insecureSkipVerify := false, rootCAs := [1, 2, 3] })])) :=
  have h := appendExtra_mysql_behavior extEx "tcp(h:3306)/db" "ca.pem" mysqlCfgEx
    [1, 2, 3] rfl
  ⟨h.1, h.2 (by decide) rfl rfl⟩

/-- Claim C10: for every configuration, the run group contains the gRPC
server, the Burglar and the three metrics notifiers, with the server listed
before the Burglar; `registration-runner` is a member exactly when consul
registration is enabled; and `debug-server` is a member exactly when a debug
address is configured, in which case it is placed first. -/
theorem run_group_member_layout (cfg : LocketConfig) :
    "server" ∈ membersOf cfg ∧ "burglar" ∈ membersOf cfg ∧
    "lock-metrics-notifier" ∈ membersOf cfg ∧
    "db-metrics-notifier" ∈ membersOf cfg ∧
    "request-metrics-notifier" ∈ membersOf cfg ∧
    (membersOf cfg).indexOf "server" < (membersOf cfg).indexOf "burglar" ∧
    ("registration-runner" ∈ membersOf cfg ↔
      cfg.enableConsulServiceRegistration = true) ∧
    ("debug-server" ∈ membersOf cfg ↔ cfg.debugAddress ≠ "") ∧
    (cfg.debugAddress ≠ "" → (membersOf cfg).head? = some "debug-server") := by
  by_cases hd : cfg.debugAddress = "" <;>
    by_cases hc : cfg.enableConsulServiceRegistration = true <;>
      simp_all [membersOf]

/-- Claim C10 witness: the theorem at the sample configuration that enables
both the consul registration and the debug server. -/
theorem run_group_member_layout_witness :
    "server" ∈ membersOf cfgEx2 ∧ "burglar" ∈ membersOf cfgEx2 ∧
    "lock-metrics-notifier" ∈ membersOf cfgEx2 ∧
    "db-metrics-notifier" ∈ membersOf cfgEx2 ∧
    "request-metrics-notifier" ∈ membersOf cfgEx2 ∧
    (membersOf cfgEx2).indexOf "server" < (membersOf cfgEx2).indexOf "burglar" ∧
    ("registration-runner" ∈ membersOf cfgEx2 ↔
      cfgEx2.enableConsulServiceRegistration = true) ∧
    ("debug-server" ∈ membersOf cfgEx2 ↔ cfgEx2.debugAddress ≠ "") ∧
    (cfgEx2.debugAddress ≠ "" → (membersOf cfgEx2).head? = some "debug-server") :=
  run_group_member_layout cfgEx2

end Locket
